import Mathlib

/-!
Shallow embedding of `homgarapi/devices.py`: the status-string and
tagged-binary decoders of the Homgar device layer, together with proofs about
them.  Python strings are modelled as `List Char` (ASCII payloads; the `\d`
class of the status regex is modelled as the ASCII digits `0`-`9`), Python
`int` values as `Int`, Python float scaling (`* .1`, `round`) as exact
rational arithmetic on `ℚ`, and an uncaught Python exception as a `false`
success flag (or `none`) returned next to the state reached before the
exception was raised — in-place attribute mutation is modelled by explicit
patches applied to an immutable record.
-/

namespace Homgar

/-- Splits a character list on every occurrence of `sep`, keeping empty
parts.  Models Python `str.split(sep)` for a one-character separator. -/
def splitOnChar (sep : Char) : List Char → List (List Char)
  | [] => [[]]
  | c :: rest =>
    match splitOnChar sep rest with
    | [] => [[]]
    | part :: parts => if c = sep then [] :: part :: parts else (c :: part) :: parts

/-- Numeric value of a decimal digit string (most significant first). -/
def digitsToNat (l : List Char) : Nat :=
  l.foldl (fun a c => 10 * a + (c.toNat - 48)) 0

/-- ASCII whitespace accepted (and stripped) by Python `int(str)`. -/
def isPySpace (c : Char) : Bool :=
  c = ' ' || c = '\t' || c = '\n' || c = '\x0d' || c = '\x0b' || c = '\x0c'

/-- Strip leading and trailing ASCII whitespace. -/
def pyStrip (l : List Char) : List Char :=
  ((l.dropWhile isPySpace).reverse.dropWhile isPySpace).reverse

/-- Digit run in Python `int` literal syntax: groups of ASCII digits joined by
single underscores (`12`, `1_2`; not ``, `_1`, `1_`, `1__2`). -/
def pyDigitRun (l : List Char) : Bool :=
  (splitOnChar '_' l).all fun g => !g.isEmpty && g.all Char.isDigit

/-- Magnitude part of Python `int(str)` (after sign removal). -/
def pyNat? (l : List Char) : Option Nat :=
  if pyDigitRun l then some (digitsToNat (l.filter Char.isDigit)) else none

/-- Models Python `int(s)` on an ASCII string: strip surrounding whitespace,
optional single sign, then a digit run; `none` models the raised
`ValueError`. -/
def pyInt? (l : List Char) : Option Int :=
  match pyStrip l with
  | '+' :: rest => (pyNat? rest).map Int.ofNat
  | '-' :: rest => (pyNat? rest).map fun n => -(n : Int)
  | rest => (pyNat? rest).map Int.ofNat

/-- `STATS_VALUE_REGEX.fullmatch` followed by `int()` on the four groups:
full match of `(\d+)\((\d+)/(\d+)/(\d+)\)`, returning the four captured
integers.  `none` models the Python result `(None, None, None, None)`.
Greedy `\d+` never backtracks here because each group is followed by a
non-digit delimiter, so maximal munch (`takeWhile`) is exact. -/
def parse_stats_value (s : List Char) : Option (Nat × Nat × Nat × Nat) :=
  let g1 := s.takeWhile Char.isDigit
  if g1.isEmpty then none else
  match s.dropWhile Char.isDigit with
  | '(' :: r2 =>
    let g2 := r2.takeWhile Char.isDigit
    if g2.isEmpty then none else
    match r2.dropWhile Char.isDigit with
    | '/' :: r4 =>
      let g3 := r4.takeWhile Char.isDigit
      if g3.isEmpty then none else
      match r4.dropWhile Char.isDigit with
      | '/' :: r6 =>
        let g4 := r6.takeWhile Char.isDigit
        if g4.isEmpty then none else
        match r6.dropWhile Char.isDigit with
        | [')'] => some (digitsToNat g1, digitsToNat g2, digitsToNat g3, digitsToNat g4)
        | _ => none
      | _ => none
    | _ => none
  | _ => none

/-- Python 3 `round` to an integer: round half to even, on exact rationals. -/
def pyRound (q : ℚ) : ℤ :=
  let n : ℤ := Int.floor q
  let r : ℚ := q - n
  if r < 1 / 2 then n
  else if 1 / 2 < r then n + 1
  else if n % 2 = 0 then n else n + 1

/-- `_temp_to_mk`: tenths of Fahrenheit to milli-Kelvin,
`round(1000 * ((f * .1 - 32) * 5 / 9 + 273.15))`; the Python float
computation is modelled as exact rational arithmetic. -/
def temp_to_mk (f : ℤ) : ℤ :=
  pyRound (1000 * (((f : ℚ) * (1 / 10) - 32) * 5 / 9 + 27315 / 100))

/-- A naive `datetime.datetime` value (validated calendar fields). -/
structure PyDateTime where
  year : Nat
  month : Nat
  day : Nat
  hour : Nat
  minute : Nat
  second : Nat
deriving DecidableEq

/-- Gregorian leap-year rule used by `datetime`. -/
def isLeapYear (y : Nat) : Bool :=
  y % 4 = 0 && (y % 100 ≠ 0 || y % 400 = 0)

/-- Days in a month of the proleptic Gregorian calendar. -/
def daysInMonth (y m : Nat) : Nat :=
  if m = 2 then (if isLeapYear y then 29 else 28)
  else if m = 4 ∨ m = 6 ∨ m = 9 ∨ m = 11 then 30
  else 31

/-- The range checks of the `datetime.datetime` constructor; a failure models
the raised `ValueError`. -/
def mkPyDateTime (y mo d h mi s : Nat) : Option PyDateTime :=
  if 1 ≤ y ∧ y ≤ 9999 ∧ 1 ≤ mo ∧ mo ≤ 12 ∧ 1 ≤ d ∧ d ≤ daysInMonth y mo
      ∧ h ≤ 23 ∧ mi ≤ 59 ∧ s ≤ 59 then
    some ⟨y, mo, d, h, mi, s⟩
  else none

/-- `decodeTimestamp`: unpack the bit fields of a 32-bit value and build a
`datetime.datetime`; `none` models the `ValueError` on invalid fields. -/
def decodeTimestamp (value : Nat) : Option PyDateTime :=
  mkPyDateTime (((value >>> 26) &&& 0x3f) + 2020) ((value >>> 22) &&& 0xf)
    ((value >>> 17) &&& 0x1f) ((value >>> 12) &&& 0x1f)
    ((value >>> 6) &&& 0x3f) (value &&& 0x3f)

/-- Value of one hexadecimal digit character. -/
def hexDigitVal? (c : Char) : Option Nat :=
  if '0' ≤ c ∧ c ≤ '9' then some (c.toNat - 48)
  else if 'a' ≤ c ∧ c ≤ 'f' then some (c.toNat - 87)
  else if 'A' ≤ c ∧ c ≤ 'F' then some (c.toNat - 55)
  else none

/-- `bytes.fromhex`: an even-length run of hex digits to a byte list; `none`
models the `ValueError` on odd length or a non-hex character (the whitespace
tolerance of `fromhex`, unused by this repository, is not modelled). -/
def bytesFromHex : List Char → Option (List Nat)
  | [] => some []
  | [_] => none
  | c1 :: c2 :: rest => do
    let h ← hexDigitVal? c1
    let l ← hexDigitVal? c2
    let tail ← bytesFromHex rest
    pure ((16 * h + l) :: tail)

/-- Union of the mutable status attributes of every device class in
`devices.py` (each class only ever touches its own subset), plus the device
address fixed at construction.  Immutable catalog metadata (model, name,
ids, alerts, port count) plays no part in any claim and is omitted. -/
structure DeviceState where
  address : Nat
  rf_rssi : Option Int := none
  wifi_rssi : Option Int := none
  battery_state : Option Int := none
  connected : Option Bool := none
  temp_mk_current : Option Int := none
  temp_mk_daily_max : Option Int := none
  temp_mk_daily_min : Option Int := none
  temp_trend : Option Int := none
  hum_current : Option Nat := none
  hum_daily_max : Option Nat := none
  hum_daily_min : Option Nat := none
  hum_trend : Option Nat := none
  press_pa_current : Option Nat := none
  press_pa_daily_max : Option Nat := none
  press_pa_daily_min : Option Nat := none
  press_trend : Option Nat := none
  moist_percent_current : Option Int := none
  light_lux_current : Option ℚ := none
  rainfall_mm_total : Option ℚ := none
  rainfall_mm_hour : Option ℚ := none
  rainfall_mm_daily : Option ℚ := none
  rainfall_mm_7days : Option ℚ := none
  endOfLastUsage : Option PyDateTime := none
  currentDuration : Option Nat := none
  currentUsage : Option Nat := none
  lastUsage : Option Nat := none
  lastDuration : Option Nat := none
  totalUsageCurrentDay : Option Nat := none
  totalUsage : Option Nat := none
deriving DecidableEq

/-- One decode pass mutates a device in place; every right-hand side of those
assignments depends only on the decoded value string, so a pass is recorded
as a patch: for each mutable field, `none` = attribute untouched,
`some v` = attribute assigned `v` (possibly `Option.none`, i.e. Python
`None`). -/
structure StatusPatch where
  rf_rssi : Option (Option Int) := none
  wifi_rssi : Option (Option Int) := none
  battery_state : Option (Option Int) := none
  connected : Option (Option Bool) := none
  temp_mk_current : Option (Option Int) := none
  temp_mk_daily_max : Option (Option Int) := none
  temp_mk_daily_min : Option (Option Int) := none
  temp_trend : Option (Option Int) := none
  hum_current : Option (Option Nat) := none
  hum_daily_max : Option (Option Nat) := none
  hum_daily_min : Option (Option Nat) := none
  hum_trend : Option (Option Nat) := none
  press_pa_current : Option (Option Nat) := none
  press_pa_daily_max : Option (Option Nat) := none
  press_pa_daily_min : Option (Option Nat) := none
  press_trend : Option (Option Nat) := none
  moist_percent_current : Option (Option Int) := none
  light_lux_current : Option (Option ℚ) := none
  rainfall_mm_total : Option (Option ℚ) := none
  rainfall_mm_hour : Option (Option ℚ) := none
  rainfall_mm_daily : Option (Option ℚ) := none
  rainfall_mm_7days : Option (Option ℚ) := none
  endOfLastUsage : Option (Option PyDateTime) := none
  currentDuration : Option (Option Nat) := none
  currentUsage : Option (Option Nat) := none
  lastUsage : Option (Option Nat) := none
  lastDuration : Option (Option Nat) := none
  totalUsageCurrentDay : Option (Option Nat) := none
  totalUsage : Option (Option Nat) := none
deriving DecidableEq

/-- Apply the recorded assignments of one decode pass to a device state. -/
def applyPatch (p : StatusPatch) (st : DeviceState) : DeviceState :=
  { address := st.address
    rf_rssi := p.rf_rssi.getD st.rf_rssi
    wifi_rssi := p.wifi_rssi.getD st.wifi_rssi
    battery_state := p.battery_state.getD st.battery_state
    connected := p.connected.getD st.connected
    temp_mk_current := p.temp_mk_current.getD st.temp_mk_current
    temp_mk_daily_max := p.temp_mk_daily_max.getD st.temp_mk_daily_max
    temp_mk_daily_min := p.temp_mk_daily_min.getD st.temp_mk_daily_min
    temp_trend := p.temp_trend.getD st.temp_trend
    hum_current := p.hum_current.getD st.hum_current
    hum_daily_max := p.hum_daily_max.getD st.hum_daily_max
    hum_daily_min := p.hum_daily_min.getD st.hum_daily_min
    hum_trend := p.hum_trend.getD st.hum_trend
    press_pa_current := p.press_pa_current.getD st.press_pa_current
    press_pa_daily_max := p.press_pa_daily_max.getD st.press_pa_daily_max
    press_pa_daily_min := p.press_pa_daily_min.getD st.press_pa_daily_min
    press_trend := p.press_trend.getD st.press_trend
    moist_percent_current := p.moist_percent_current.getD st.moist_percent_current
    light_lux_current := p.light_lux_current.getD st.light_lux_current
    rainfall_mm_total := p.rainfall_mm_total.getD st.rainfall_mm_total
    rainfall_mm_hour := p.rainfall_mm_hour.getD st.rainfall_mm_hour
    rainfall_mm_daily := p.rainfall_mm_daily.getD st.rainfall_mm_daily
    rainfall_mm_7days := p.rainfall_mm_7days.getD st.rainfall_mm_7days
    endOfLastUsage := p.endOfLastUsage.getD st.endOfLastUsage
    currentDuration := p.currentDuration.getD st.currentDuration
    currentUsage := p.currentUsage.getD st.currentUsage
    lastUsage := p.lastUsage.getD st.lastUsage
    lastDuration := p.lastDuration.getD st.lastDuration
    totalUsageCurrentDay := p.totalUsageCurrentDay.getD st.totalUsageCurrentDay
    totalUsage := p.totalUsage.getD st.totalUsage }

/-- Sequencing of two decode passes as patches: a field assigned by the later
pass `q` overrides the earlier pass `p`. -/
def pcomp (p q : StatusPatch) : StatusPatch :=
  { rf_rssi := q.rf_rssi <|> p.rf_rssi
    wifi_rssi := q.wifi_rssi <|> p.wifi_rssi
    battery_state := q.battery_state <|> p.battery_state
    connected := q.connected <|> p.connected
    temp_mk_current := q.temp_mk_current <|> p.temp_mk_current
    temp_mk_daily_max := q.temp_mk_daily_max <|> p.temp_mk_daily_max
    temp_mk_daily_min := q.temp_mk_daily_min <|> p.temp_mk_daily_min
    temp_trend := q.temp_trend <|> p.temp_trend
    hum_current := q.hum_current <|> p.hum_current
    hum_daily_max := q.hum_daily_max <|> p.hum_daily_max
    hum_daily_min := q.hum_daily_min <|> p.hum_daily_min
    hum_trend := q.hum_trend <|> p.hum_trend
    press_pa_current := q.press_pa_current <|> p.press_pa_current
    press_pa_daily_max := q.press_pa_daily_max <|> p.press_pa_daily_max
    press_pa_daily_min := q.press_pa_daily_min <|> p.press_pa_daily_min
    press_trend := q.press_trend <|> p.press_trend
    moist_percent_current := q.moist_percent_current <|> p.moist_percent_current
    light_lux_current := q.light_lux_current <|> p.light_lux_current
    rainfall_mm_total := q.rainfall_mm_total <|> p.rainfall_mm_total
    rainfall_mm_hour := q.rainfall_mm_hour <|> p.rainfall_mm_hour
    rainfall_mm_daily := q.rainfall_mm_daily <|> p.rainfall_mm_daily
    rainfall_mm_7days := q.rainfall_mm_7days <|> p.rainfall_mm_7days
    endOfLastUsage := q.endOfLastUsage <|> p.endOfLastUsage
    currentDuration := q.currentDuration <|> p.currentDuration
    currentUsage := q.currentUsage <|> p.currentUsage
    lastUsage := q.lastUsage <|> p.lastUsage
    lastDuration := q.lastDuration <|> p.lastDuration
    totalUsageCurrentDay := q.totalUsageCurrentDay <|> p.totalUsageCurrentDay
    totalUsage := q.totalUsage <|> p.totalUsage }

/-- Projections of a parsed stat triplet (current, day-max, day-min, trend). -/
def statCur (x : Nat × Nat × Nat × Nat) : Nat := x.1

/-- Day-max component of a parsed stat triplet. -/
def statMax (x : Nat × Nat × Nat × Nat) : Nat := x.2.1

/-- Day-min component of a parsed stat triplet. -/
def statMin (x : Nat × Nat × Nat × Nat) : Nat := x.2.2.1

/-- Trend component of a parsed stat triplet. -/
def statTrend (x : Nat × Nat × Nat × Nat) : Nat := x.2.2.2

/-- `HomgarDevice._parse_general_status_d_value`: of the three
comma-separated fields `unknown_1, rf_rssi, unknown_2`, only the middle one
is converted (`int`) and kept; `none` models the `ValueError` raised when the
field count differs from three or the middle field is not numeric. -/
def parse_general_status_d_value (s : List Char) : Option Int :=
  match splitOnChar ',' s with
  | [_unknown_1, rf_rssi, _unknown_2] => pyInt? rf_rssi
  | _ => none

/-- `RainPointDisplayHub._parse_device_specific_status_d_value`:
`temp,hum,P=press` triplets.  A failed temperature triplet aborts with a
`TypeError` (`int(None)` inside `_temp_to_mk`); failed humidity or pressure
triplets assign `None` to their four fields. -/
def displayHub_parse_specific (s : List Char) : StatusPatch × Bool :=
  match splitOnChar ',' s with
  | temp_str :: hum_str :: press_str :: _ =>
    match parse_stats_value temp_str with
    | none => ({}, false)
    | some (tc, ta, tb, tt) =>
      let p : StatusPatch :=
        { temp_mk_current := some (some (temp_to_mk tc))
          temp_mk_daily_max := some (some (temp_to_mk ta))
          temp_mk_daily_min := some (some (temp_to_mk tb))
          temp_trend := some (some (temp_to_mk tt)) }
      let hr : Option (Nat × Nat × Nat × Nat) := parse_stats_value hum_str
      let p := { p with
        hum_current := some (hr.map statCur)
        hum_daily_max := some (hr.map statMax)
        hum_daily_min := some (hr.map statMin)
        hum_trend := some (hr.map statTrend) }
      let pr : Option (Nat × Nat × Nat × Nat) := parse_stats_value (press_str.drop 2)
      let p := { p with
        press_pa_current := some (pr.map statCur)
        press_pa_daily_max := some (pr.map statMax)
        press_pa_daily_min := some (pr.map statMin)
        press_trend := some (pr.map statTrend) }
      (p, true)
  | _ => ({}, false)

/-- `RainPointSoilMoistureSensor._parse_device_specific_status_d_value`:
`temp,moisture,G=light`; each conversion that fails raises, keeping the
assignments already made. -/
def soil_parse_specific (s : List Char) : StatusPatch × Bool :=
  match splitOnChar ',' s with
  | [temp_str, moist_str, light_str] =>
    match pyInt? temp_str with
    | none => ({}, false)
    | some tv =>
      let p : StatusPatch := { temp_mk_current := some (some (temp_to_mk tv)) }
      match pyInt? moist_str with
      | none => (p, false)
      | some mv =>
        let p := { p with moist_percent_current := some (some mv) }
        match pyInt? (light_str.drop 2) with
        | none => (p, false)
        | some lv => ({ p with light_lux_current := some (some ((lv : ℚ) * (1 / 10))) }, true)
  | _ => ({}, false)

/-- `RainPointRainSensor._parse_device_specific_status_d_value`: `R=` plus a
triplet, each value scaled by `.1`; a failed triplet raises a `TypeError`
(`.1 * None`). -/
def rain_parse_specific (s : List Char) : StatusPatch × Bool :=
  match parse_stats_value (s.drop 2) with
  | none => ({}, false)
  | some (c, a, b, t) =>
    ({ rainfall_mm_total := some (some ((1 / 10 : ℚ) * c))
       rainfall_mm_hour := some (some ((1 / 10 : ℚ) * a))
       rainfall_mm_daily := some (some ((1 / 10 : ℚ) * b))
       rainfall_mm_7days := some (some ((1 / 10 : ℚ) * t)) }, true)

/-- `RainPointAirSensor._parse_device_specific_status_d_value`: `temp,hum`
triplets, trailing fields ignored; same failure behaviour as the hub. -/
def air_parse_specific (s : List Char) : StatusPatch × Bool :=
  match splitOnChar ',' s with
  | temp_str :: hum_str :: _ =>
    match parse_stats_value temp_str with
    | none => ({}, false)
    | some (tc, ta, tb, tt) =>
      let p : StatusPatch :=
        { temp_mk_current := some (some (temp_to_mk tc))
          temp_mk_daily_max := some (some (temp_to_mk ta))
          temp_mk_daily_min := some (some (temp_to_mk tb))
          temp_trend := some (some (temp_to_mk tt)) }
      let hr : Option (Nat × Nat × Nat × Nat) := parse_stats_value hum_str
      let p := { p with
        hum_current := some (hr.map statCur)
        hum_daily_max := some (hr.map statMax)
        hum_daily_min := some (hr.map statMin)
        hum_trend := some (hr.map statTrend) }
      (p, true)
  | _ => ({}, false)

/-- The `pass` bodies: `HomgarHubDevice`, `HomgarSubDevice` and
`RainPoint2ZoneTimer` device-specific decoders update nothing. -/
def noop_parse_specific (_s : List Char) : StatusPatch × Bool := ({}, true)

/-- `HomgarDevice._parse_status_d_value`: split on the single `;` into the
general and the device-specific part and decode both in order. -/
def parse_status_d_value (specific : List Char → StatusPatch × Bool)
    (val : List Char) : StatusPatch × Bool :=
  match splitOnChar ';' val with
  | [general_str, specific_str] =>
    match parse_general_status_d_value general_str with
    | none => ({}, false)
    | some r =>
      let (p, ok) := specific specific_str
      (pcomp { rf_rssi := some (some r) } p, ok)
  | _ => ({}, false)

/-- Display hub `"state"` entry: two comma-separated integers,
battery state then WiFi RSSI; any failure assigns nothing. -/
def displayHub_parse_state (val : List Char) : StatusPatch × Bool :=
  match (splitOnChar ',' val).mapM pyInt? with
  | some [bs, wr] => ({ battery_state := some (some bs), wifi_rssi := some (some wr) }, true)
  | _ => ({}, false)

/-- Display hub `"connected"` entry: `int(val) == 1`. -/
def displayHub_parse_connected (val : List Char) : StatusPatch × Bool :=
  match pyInt? val with
  | none => ({}, false)
  | some v => ({ connected := some (some (v = 1 : Bool)) }, true)

/-- The `match tag` body of `RainPointWaterFlowMeter._parse_status_d_value`:
one known tag assigns exactly its field (`0xb7` through the fallible
timestamp decode, `none` modelling the propagated `ValueError`); `0x0b`,
`0xdc` and unknown tags assign nothing (unknown tags only print a
diagnostic). -/
def applyTag (tag : Nat) (value : Nat) (p : StatusPatch) : Option StatusPatch :=
  if tag = 0x0b then some p
  else if tag = 0xdc then some p
  else if tag = 0xb7 then
    match decodeTimestamp value with
    | some ts => some { p with endOfLastUsage := some (some ts) }
    | none => none
  else if tag = 0x07 then some { p with currentDuration := some (some value) }
  else if tag = 0xaf then some { p with currentUsage := some (some value) }
  else if tag = 0x9f then some { p with lastUsage := some (some value) }
  else if tag = 0x0a then some { p with lastDuration := some (some value) }
  else if tag = 0xcb then some { p with totalUsageCurrentDay := some (some value) }
  else if tag = 0xb3 then some { p with totalUsage := some (some value) }
  else some p

/-- The `while idx < len(bytesArray)` loop of the flow-meter decoder: read a
tag byte; `0xff` is padding; otherwise consume four bytes as a little-endian
32-bit value (the `factor` loop unrolled) and dispatch on the tag.  Running
out of bytes mid-value models the Python `IndexError`; either failure keeps
the assignments made so far and reports `false`. -/
def scanTags : StatusPatch → List Nat → StatusPatch × Bool
  | p, [] => (p, true)
  | p, tag :: rest =>
    if tag = 255 then scanTags p rest
    else
      match rest with
      | b0 :: b1 :: b2 :: b3 :: rest2 =>
        match applyTag tag (b0 + 256 * b1 + 65536 * b2 + 16777216 * b3) p with
        | some p2 => scanTags p2 rest2
        | none => (p, false)
      | _ => (p, false)

/-- `RainPointWaterFlowMeter._parse_status_d_value`: split `10#hexblob` on
the single `#`, decode the hex blob to bytes, take the RF RSSI from byte 1
as `-((-b) & 0xff)`, then scan the tagged fields from byte index 3. -/
def flow_parse_status_d_value (val : List Char) : StatusPatch × Bool :=
  match splitOnChar '#' val with
  | [_ten, hx] =>
    match bytesFromHex hx with
    | some (b0 :: b1 :: brest) =>
      scanTags { rf_rssi := some (some (-((-(b1 : Int)) % 256))) }
        (List.drop 3 (b0 :: b1 :: brest))
    | _ => ({}, false)
  | _ => ({}, false)

/-- The concrete device classes of `MODEL_CODE_MAPPING`. -/
inductive DeviceKind
  | displayHub
  | soilMoistureSensor
  | rainSensor
  | airSensor
  | twoZoneTimer
  | miniBoxHub
  | waterFlowMeter
deriving DecidableEq

/-- A constructed device: its class and its mutable status record. -/
structure HomgarDevice where
  kind : DeviceKind
  st : DeviceState
deriving DecidableEq

/-- `f"D{address:02d}"`: zero-padded two-digit status id. -/
def formatD02 (address : Nat) : String :=
  "D" ++ (if address < 10 then "0" ++ toString address else toString address)

/-- `get_device_status_ids`: the display hub overrides with its three ids, a
subdevice listens to its `Dxx` id, and a plain hub (`RainPointMiniBoxHub`
inheriting `HomgarHubDevice`) falls back to the base implementation, which
returns no ids. -/
def get_device_status_ids (kind : DeviceKind) (address : Nat) : List String :=
  match kind with
  | .displayHub => ["connected", "state", "D01"]
  | .miniBoxHub => []
  | _ => [formatD02 address]

/-- `set_device_status` as a patch: the display hub handles `"state"` and
`"connected"` itself and defers to the base class otherwise; every other
class runs the base method, which decodes the value only when the entry id
equals the device's `Dxx` id (the flow meter with its overridden
`_parse_status_d_value`). -/
def statusPatchFor (kind : DeviceKind) (address : Nat) (id : String)
    (value : List Char) : StatusPatch × Bool :=
  match kind with
  | .displayHub =>
    if id = "state" then displayHub_parse_state value
    else if id = "connected" then displayHub_parse_connected value
    else if id = formatD02 address then parse_status_d_value displayHub_parse_specific value
    else ({}, true)
  | .soilMoistureSensor =>
    if id = formatD02 address then parse_status_d_value soil_parse_specific value else ({}, true)
  | .rainSensor =>
    if id = formatD02 address then parse_status_d_value rain_parse_specific value else ({}, true)
  | .airSensor =>
    if id = formatD02 address then parse_status_d_value air_parse_specific value else ({}, true)
  | .twoZoneTimer =>
    if id = formatD02 address then parse_status_d_value noop_parse_specific value else ({}, true)
  | .miniBoxHub =>
    if id = formatD02 address then parse_status_d_value noop_parse_specific value else ({}, true)
  | .waterFlowMeter =>
    if id = formatD02 address then flow_parse_status_d_value value else ({}, true)

/-- One `$.data.subDeviceStatus` entry: an id and a raw value string. -/
structure StatusEntry where
  id : String
  value : String
deriving DecidableEq

/-- `set_device_status` on a device: apply the assignments made by the
decode, reporting `false` when the Python call would raise. -/
def set_device_status (d : HomgarDevice) (e : StatusEntry) : HomgarDevice × Bool :=
  let (p, ok) := statusPatchFor d.kind d.st.address e.id e.value.toList
  ({ d with st := applyPatch p d.st }, ok)

/-- Modelled from the spec: the status router (in the API client, outside
this repository's decoding module) delivers to a device each entry whose id
is in `get_device_status_ids`; a decode error is reported per entry and does
not interrupt the batch. -/
def device_step (d : HomgarDevice) (e : StatusEntry) : HomgarDevice :=
  if (get_device_status_ids d.kind d.st.address).contains e.id then
    (set_device_status d e).1
  else d

/-- Modelled from the spec: one poll cycle applies a whole batch of raw
status entries to a device in order. -/
def applyStatusBatch (d : HomgarDevice) (entries : List StatusEntry) : HomgarDevice :=
  entries.foldl device_step d

/-- The patch contributed by one routed entry (empty when the id does not
match the device). -/
def guardedPatch (kind : DeviceKind) (address : Nat) (e : StatusEntry) : StatusPatch :=
  if (get_device_status_ids kind address).contains e.id then
    (statusPatchFor kind address e.id e.value.toList).1
  else {}

/-- The combined patch of a batch of entries, later entries overriding. -/
def batchPatch (kind : DeviceKind) (address : Nat) : List StatusEntry → StatusPatch
  | [] => {}
  | e :: rest => pcomp (guardedPatch kind address e) (batchPatch kind address rest)

/-- The Water Flow Meter example status value of the source comments and the
spec, routed through `set_device_status` of a flow meter at address 5. -/
def flowMeterExample : HomgarDevice × Bool :=
  set_device_status ⟨DeviceKind.waterFlowMeter, { address := 5 }⟩
    ⟨"D05", "10#E1CE00FF0B00000000DC01990000B7D9E66A16FF0700000000AF000000009F07000000FF0A02000000CB07000000B307000000"⟩

/-! ### General lemmas about options, splitting and patches -/

theorem opt_orElse_self {α : Type} (o : Option α) : (o <|> o) = o := by
  cases o <;> rfl

theorem opt_getD_orElse {α : Type} (p q : Option α) (x : α) :
    (q <|> p).getD x = q.getD (p.getD x) := by
  cases q <;> rfl

theorem applyPatch_empty (st : DeviceState) : applyPatch {} st = st := rfl

theorem applyPatch_address (p : StatusPatch) (st : DeviceState) :
    (applyPatch p st).address = st.address := rfl

theorem applyPatch_pcomp (p q : StatusPatch) (st : DeviceState) :
    applyPatch q (applyPatch p st) = applyPatch (pcomp p q) st := by
  simp only [applyPatch, pcomp, opt_getD_orElse]

theorem pcomp_self (p : StatusPatch) : pcomp p p = p := by
  cases p
  simp only [pcomp, opt_orElse_self]

theorem splitOnChar_ne_nil (sep : Char) (l : List Char) : splitOnChar sep l ≠ [] := by
  induction l with
  | nil => simp [splitOnChar]
  | cons c rest ih =>
    simp only [splitOnChar]
    match h : splitOnChar sep rest with
    | [] => exact absurd h ih
    | part :: parts =>
      by_cases hc : c = sep <;> simp [hc]

theorem length_splitOnChar (sep : Char) (l : List Char) :
    (splitOnChar sep l).length = l.count sep + 1 := by
  induction l with
  | nil => simp [splitOnChar]
  | cons c rest ih =>
    simp only [splitOnChar]
    rcases h : splitOnChar sep rest with _ | ⟨part, parts⟩
    · exact absurd h (splitOnChar_ne_nil sep rest)
    · rw [h] at ih
      simp only [List.length_cons] at ih
      show (if c = sep then [] :: part :: parts else (c :: part) :: parts).length
          = (c :: rest).count sep + 1
      by_cases hc : c = sep
      · subst hc
        rw [if_pos rfl]
        simp only [List.count_cons_self, List.length_cons]
        omega
      · rw [if_neg hc]
        have hc2 : (c == sep) = false := by simp [hc]
        simp only [List.count_cons, hc2, if_false, List.length_cons,
          Bool.false_eq_true]
        omega

theorem isEmpty_eq_false_of_ne_nil {l : List Char} (h : l ≠ []) : l.isEmpty = false := by
  cases l with
  | nil => exact absurd rfl h
  | cons c r => rfl

theorem takeWhile_digits_append (xs : List Char) (y : Char) (ys : List Char)
    (hxs : ∀ x ∈ xs, Char.isDigit x = true) (hy : Char.isDigit y = false) :
    ((xs ++ y :: ys).takeWhile Char.isDigit = xs
      ∧ (xs ++ y :: ys).dropWhile Char.isDigit = y :: ys) := by
  induction xs with
  | nil =>
    have hy2 : ¬ (Char.isDigit y = true) := by simp [hy]
    constructor
    · simp [List.takeWhile_cons_of_neg hy2]
    · simp [List.dropWhile_cons_of_neg hy2]
  | cons x xs ih =>
    have hx : Char.isDigit x = true := hxs x (by simp)
    have ih2 := ih fun z hz => hxs z (by simp [hz])
    constructor
    · simpa [List.takeWhile_cons_of_pos hx] using ih2.1
    · simpa [List.dropWhile_cons_of_pos hx] using ih2.2

/-! ### The router as patch application (for batch idempotence) -/

theorem device_step_patch (d : HomgarDevice) (e : StatusEntry) :
    device_step d e = ⟨d.kind, applyPatch (guardedPatch d.kind d.st.address e) d.st⟩ := by
  unfold device_step guardedPatch set_device_status
  by_cases hm : e.id ∈ get_device_status_ids d.kind d.st.address
  · simp [hm]
  · simp [hm, applyPatch_empty]

theorem applyStatusBatch_patch (B : List StatusEntry) (d : HomgarDevice) :
    applyStatusBatch d B = ⟨d.kind, applyPatch (batchPatch d.kind d.st.address B) d.st⟩ := by
  induction B generalizing d with
  | nil =>
    show d = ⟨d.kind, applyPatch {} d.st⟩
    rw [applyPatch_empty]
  | cons e B ih =>
    show applyStatusBatch (device_step d e) B = _
    rw [ih, device_step_patch]
    simp only [applyPatch_address, applyPatch_pcomp]
    rfl

/-! ### Claim theorems -/

/-- C8: for every device and every status batch, applying the same batch of
raw status entries twice to the device (each matching entry via
`set_device_status`) yields a device state identical to applying it once. -/
theorem c8_batch_idempotent (d : HomgarDevice) (B : List StatusEntry) :
    applyStatusBatch (applyStatusBatch d B) B = applyStatusBatch d B := by
  rw [applyStatusBatch_patch B d, applyStatusBatch_patch B ⟨d.kind, _⟩]
  show (⟨d.kind, applyPatch (batchPatch d.kind (applyPatch _ d.st).address B)
      (applyPatch (batchPatch d.kind d.st.address B) d.st)⟩ : HomgarDevice) = _
  rw [applyPatch_address, applyPatch_pcomp, pcomp_self]

/-- C3 (counterexample): the claim also asserts that a plain hub — the Mini
Box Hub, whose address is 1 — yields exactly `{"D01"}`; in the code a plain
hub inherits the base `get_device_status_ids`, which returns no ids at
all. -/
theorem c3_counterexample :
    get_device_status_ids DeviceKind.miniBoxHub 1 = []
      ∧ get_device_status_ids DeviceKind.miniBoxHub 1 ≠ ["D01"] := by
  exact ⟨rfl, by decide⟩

/-- C3 (amended): every plain subdevice listens exactly to
`"D" + zero-padded-2-digit(address)` (so `{"D05"}` at address 5), the
Display Hub listens exactly to `{"connected", "state", "D01"}`, but a plain
hub such as the Mini Box Hub listens to nothing: the base implementation
returns the empty list. -/
theorem c3_status_ids :
    (∀ a : Nat,
      get_device_status_ids DeviceKind.soilMoistureSensor a = [formatD02 a]
        ∧ get_device_status_ids DeviceKind.rainSensor a = [formatD02 a]
        ∧ get_device_status_ids DeviceKind.airSensor a = [formatD02 a]
        ∧ get_device_status_ids DeviceKind.twoZoneTimer a = [formatD02 a]
        ∧ get_device_status_ids DeviceKind.waterFlowMeter a = [formatD02 a])
    ∧ get_device_status_ids DeviceKind.soilMoistureSensor 5 = ["D05"]
    ∧ get_device_status_ids DeviceKind.displayHub 1 = ["connected", "state", "D01"]
    ∧ get_device_status_ids DeviceKind.miniBoxHub 1 = [] := by
  refine ⟨fun a => ⟨rfl, rfl, rfl, rfl, rfl⟩, by decide, rfl, rfl⟩

/-- C5: the tagged-binary scan starts at byte index 3 of the decoded blob
and runs to its end; an `0xff` tag is padding consuming no value; any other
tag consumes the following four bytes as a little-endian 32-bit value; a
known tag assigns exactly its mapped field, while an unknown tag such as
`0x99` assigns nothing and the scan of the remaining tags continues. -/
theorem c5_tagged_scan :
    (∀ p : StatusPatch, scanTags p [] = (p, true))
    ∧ (∀ (p : StatusPatch) (rest : List Nat), scanTags p (255 :: rest) = scanTags p rest)
    ∧ (∀ (p p2 : StatusPatch) (tag b0 b1 b2 b3 : Nat) (rest : List Nat),
        tag ≠ 255 →
        applyTag tag (b0 + 256 * b1 + 65536 * b2 + 16777216 * b3) p = some p2 →
        scanTags p (tag :: b0 :: b1 :: b2 :: b3 :: rest) = scanTags p2 rest)
    ∧ (∀ (tag v : Nat) (p : StatusPatch), tag ≠ 255 →
        tag ∉ [0x0b, 0xdc, 0xb7, 0x07, 0xaf, 0x9f, 0x0a, 0xcb, 0xb3] →
        applyTag tag v p = some p)
    ∧ (∀ (p : StatusPatch) (b0 b1 b2 b3 : Nat) (rest : List Nat),
        scanTags p (0x99 :: b0 :: b1 :: b2 :: b3 :: rest) = scanTags p rest)
    ∧ (∀ (val ten hx : List Char) (b0 b1 : Nat) (brest : List Nat),
        splitOnChar '#' val = [ten, hx] →
        bytesFromHex hx = some (b0 :: b1 :: brest) →
        flow_parse_status_d_value val
          = scanTags { rf_rssi := some (some (-((-(b1 : Int)) % 256))) }
              (List.drop 3 (b0 :: b1 :: brest))) := by
  refine ⟨fun p => rfl, ?_, ?_, ?_, ?_, ?_⟩
  · intro p rest
    conv_lhs => rw [scanTags.eq_def]
    simp
  · intro p p2 tag b0 b1 b2 b3 rest htag happ
    rw [scanTags.eq_2, if_neg htag, happ]
  · intro tag v p htag hunk
    simp only [List.mem_cons, List.mem_singleton, not_or] at hunk
    obtain ⟨h1, h2, h3, h4, h5, h6, h7, h8, h9, -⟩ := hunk
    simp only [applyTag, if_neg h1, if_neg h2, if_neg h3, if_neg h4, if_neg h5,
      if_neg h6, if_neg h7, if_neg h8, if_neg h9]
  · intro p b0 b1 b2 b3 rest
    have happ : applyTag 0x99 (b0 + 256 * b1 + 65536 * b2 + 16777216 * b3) p = some p := by
      simp [applyTag]
    rw [scanTags.eq_2, if_neg (by decide : (0x99 : Nat) ≠ 255), happ]
  · intro val ten hx b0 b1 brest hsplit hbytes
    simp only [flow_parse_status_d_value, hsplit, hbytes]

/-- C6: when the bit fields unpacked from a 32-bit timestamp value do not
form a valid calendar date/time, the decode of that status entry stops with
a reported error (keeping the assignments made before the bad tag) and — in
the spec-modelled router — the poll continues with the remaining entries
unaffected. -/
theorem c6_invalid_timestamp :
    (∀ (b0 b1 b2 b3 : Nat) (p : StatusPatch) (rest : List Nat),
        decodeTimestamp (b0 + 256 * b1 + 65536 * b2 + 16777216 * b3) = none →
        scanTags p (0xb7 :: b0 :: b1 :: b2 :: b3 :: rest) = (p, false))
    ∧ (∀ (d : HomgarDevice) (e : StatusEntry) (B : List StatusEntry),
        applyStatusBatch d (e :: B) = applyStatusBatch (device_step d e) B) := by
  constructor
  · intro b0 b1 b2 b3 p rest hts
    have happ : applyTag 0xb7 (b0 + 256 * b1 + 65536 * b2 + 16777216 * b3) p = none := by
      simp [applyTag, hts]
    rw [scanTags.eq_2, if_neg (by decide : (0xb7 : Nat) ≠ 255), happ]
  · intro d e B
    rfl

/-- C5 witness: the scan step at the concrete known tag `0x07` with value
bytes `01 00 00 00`. -/
theorem c5_witness :
    scanTags {} [0x07, 1, 0, 0, 0] = ({ currentDuration := some (some 1) }, true) := by
  rw [c5_tagged_scan.2.2.1 {} { currentDuration := some (some 1) } 0x07 1 0 0 0 []
    (by decide) rfl]
  rfl

/-- C6 witness: timestamp value 0 unpacks to month 0 and day 0, an invalid
calendar date, so the scan of that entry reports a decode error. -/
theorem c6_witness : scanTags {} [0xb7, 0, 0, 0, 0] = ({}, false) := by
  exact c6_invalid_timestamp.1 0 0 0 0 {} [] (by decide)

/-- C7: the general status decoder retains exactly the middle of the three
comma-separated fields (converted by `int`) as the RF RSSI; when the field
count is not 3 or the middle field is not numeric it reports a decode error
(no assignment, `none` / a failed entry) instead of crashing, and the entry
decode built on it reports the error with an empty patch. -/
theorem c7_general_status :
    (∀ (s u1 r u2 : List Char), splitOnChar ',' s = [u1, r, u2] →
        parse_general_status_d_value s = pyInt? r)
    ∧ (∀ s : List Char, (splitOnChar ',' s).length ≠ 3 →
        parse_general_status_d_value s = none)
    ∧ (∀ (sp : List Char → StatusPatch × Bool) (v g s2 : List Char),
        splitOnChar ';' v = [g, s2] → parse_general_status_d_value g = none →
        parse_status_d_value sp v = ({}, false)) := by
  refine ⟨?_, ?_, ?_⟩
  · intro s u1 r u2 h
    simp [parse_general_status_d_value, h]
  · intro s hlen
    rcases h : splitOnChar ',' s with _ | ⟨a, _ | ⟨b, _ | ⟨c, _ | ⟨d, tl⟩⟩⟩⟩ <;>
      simp [parse_general_status_d_value, h]
    exact absurd (by rw [h]; rfl) hlen
  · intro sp v g s2 hsplit hgen
    simp [parse_status_d_value, hsplit, hgen]

/-- C7 witness: the concrete general prefix `1,-67,1` keeps only the middle
field, and a two-field prefix fails. -/
theorem c7_witness :
    parse_general_status_d_value ("1,-67,1".toList) = pyInt? ("-67".toList)
      ∧ parse_general_status_d_value ("1,2".toList) = none := by
  exact ⟨c7_general_status.1 ("1,-67,1".toList) ("1".toList) ("-67".toList) ("1".toList)
      (by decide),
    c7_general_status.2.1 ("1,2".toList) (by decide)⟩

/-- The `Dxx` id of a device never collides with the display hub's special
`"state"` and `"connected"` ids. -/
theorem formatD02_ne_special (a : Nat) :
    formatD02 a ≠ "state" ∧ formatD02 a ≠ "connected" := by
  constructor <;>
  · intro h
    have hdata := congrArg String.data h
    simp only [formatD02, String.data_append] at hdata
    cases hdata

/-- A value string without exactly one `;` makes the general/specific split
fail before anything is decoded. -/
theorem parse_status_d_value_bad_split (sp : List Char → StatusPatch × Bool)
    (val : List Char) (h : val.count ';' ≠ 1) :
    parse_status_d_value sp val = ({}, false) := by
  have hlen : (splitOnChar ';' val).length ≠ 2 := by
    rw [length_splitOnChar]
    omega
  rcases hs : splitOnChar ';' val with _ | ⟨a, _ | ⟨b, _ | ⟨c, tl⟩⟩⟩ <;>
    simp [parse_status_d_value, hs]
  exact absurd (by rw [hs]; rfl) hlen

/-- C10: for every device kind other than the Water Flow Meter, a matching
`Dxx` entry whose value does not contain exactly one `;` makes
`set_device_status` raise (the general/specific split fails before any
decoding), leaving the device state untouched: the decode entry point is
partial in the value string. -/
theorem c10_semicolon_split (k : DeviceKind) (hk : k ≠ DeviceKind.waterFlowMeter)
    (st : DeviceState) (v : String) (hv : v.toList.count ';' ≠ 1) :
    set_device_status ⟨k, st⟩ ⟨formatD02 st.address, v⟩ = (⟨k, st⟩, false) := by
  have hsp := fun sp => parse_status_d_value_bad_split sp v.toList hv
  cases k with
  | waterFlowMeter => exact absurd rfl hk
  | displayHub =>
    simp only [set_device_status, statusPatchFor,
      if_neg (formatD02_ne_special st.address).1,
      if_neg (formatD02_ne_special st.address).2, if_pos rfl, hsp]
    rfl
  | soilMoistureSensor =>
    simp only [set_device_status, statusPatchFor, if_pos rfl, hsp]
    rfl
  | rainSensor =>
    simp only [set_device_status, statusPatchFor, if_pos rfl, hsp]
    rfl
  | airSensor =>
    simp only [set_device_status, statusPatchFor, if_pos rfl, hsp]
    rfl
  | twoZoneTimer =>
    simp only [set_device_status, statusPatchFor, if_pos rfl, hsp]
    rfl
  | miniBoxHub =>
    simp only [set_device_status, statusPatchFor, if_pos rfl, hsp]
    rfl

/-- C10 witness: a soil moisture sensor at address 5 with a semicolon-free
value string. -/
theorem c10_witness :
    set_device_status ⟨DeviceKind.soilMoistureSensor, { address := 5 }⟩
        ⟨formatD02 5, "766,52"⟩
      = (⟨DeviceKind.soilMoistureSensor, { address := 5 }⟩, false) := by
  exact c10_semicolon_split DeviceKind.soilMoistureSensor (by decide)
    { address := 5 } "766,52" (by decide)

theorem pyRound_bounds (q : ℚ) : Int.floor q ≤ pyRound q ∧ pyRound q ≤ Int.floor q + 1 := by
  simp only [pyRound]
  split_ifs <;> omega

theorem pyRound_mono {x y : ℚ} (h : x ≤ y) : pyRound x ≤ pyRound y := by
  have hf : Int.floor x ≤ Int.floor y := Int.floor_le_floor h
  rcases lt_or_eq_of_le hf with hlt | heq
  · have h1 := (pyRound_bounds x).2
    have h2 := (pyRound_bounds y).1
    omega
  · simp only [pyRound, ← heq]
    split_ifs <;> first | omega | (exfalso; linarith)

/-- C9: the tenths-of-Fahrenheit to milli-Kelvin conversion is monotonic
nondecreasing in its integer input and maps 320 (32.0 °F) to 273150 mK. -/
theorem c9_temp_to_mk :
    (∀ a b : ℤ, a < b → temp_to_mk a ≤ temp_to_mk b) ∧ temp_to_mk 320 = 273150 := by
  constructor
  · intro a b hab
    unfold temp_to_mk
    apply pyRound_mono
    have h1 : (a : ℚ) ≤ (b : ℚ) := by exact_mod_cast hab.le
    linarith
  · norm_num [temp_to_mk, pyRound]

/-- C9 witness: monotonicity applied at the freezing point, together with
the anchor value. -/
theorem c9_witness : temp_to_mk 300 ≤ temp_to_mk 320 ∧ temp_to_mk 320 = 273150 :=
  ⟨c9_temp_to_mk.1 300 320 (by decide), c9_temp_to_mk.2⟩

theorem parse_stats_value_of_form (c a b t : List Char)
    (hc : c ≠ []) (ha : a ≠ []) (hb : b ≠ []) (ht : t ≠ [])
    (hcd : ∀ x ∈ c, Char.isDigit x = true) (had : ∀ x ∈ a, Char.isDigit x = true)
    (hbd : ∀ x ∈ b, Char.isDigit x = true) (htd : ∀ x ∈ t, Char.isDigit x = true) :
    parse_stats_value (c ++ ('(' :: (a ++ ('/' :: (b ++ ('/' :: (t ++ [')'])))))))
      = some (digitsToNat c, digitsToNat a, digitsToNat b, digitsToNat t) := by
  have h1 := takeWhile_digits_append c '(' (a ++ ('/' :: (b ++ ('/' :: (t ++ [')'])))))
    hcd (by decide)
  have h2 := takeWhile_digits_append a '/' (b ++ ('/' :: (t ++ [')']))) had (by decide)
  have h3 := takeWhile_digits_append b '/' (t ++ [')']) hbd (by decide)
  have h4 := takeWhile_digits_append t ')' [] htd (by decide)
  simp only [parse_stats_value, h1.1, h1.2, h2.1, h2.2, h3.1, h3.2, h4.1, h4.2,
    isEmpty_eq_false_of_ne_nil hc, isEmpty_eq_false_of_ne_nil ha,
    isEmpty_eq_false_of_ne_nil hb, isEmpty_eq_false_of_ne_nil ht,
    Bool.false_eq_true, if_false]

theorem parse_stats_value_sound (s : List Char) (r : Nat × Nat × Nat × Nat)
    (h : parse_stats_value s = some r) :
    ∃ c a b t : List Char,
      (c ≠ [] ∧ a ≠ [] ∧ b ≠ [] ∧ t ≠ []) ∧
      ((∀ x ∈ c, Char.isDigit x = true) ∧ (∀ x ∈ a, Char.isDigit x = true) ∧
       (∀ x ∈ b, Char.isDigit x = true) ∧ (∀ x ∈ t, Char.isDigit x = true)) ∧
      s = c ++ ('(' :: (a ++ ('/' :: (b ++ ('/' :: (t ++ [')'])))))) ∧
      r = (digitsToNat c, digitsToNat a, digitsToNat b, digitsToNat t) := by
  simp only [parse_stats_value] at h
  split at h
  · exact Option.noConfusion h
  · rename_i hne1
    split at h
    case _ r2 heq1 =>
      split at h
      · exact Option.noConfusion h
      · rename_i hne2
        split at h
        case _ r4 heq2 =>
          split at h
          · exact Option.noConfusion h
          · rename_i hne3
            split at h
            case _ r6 heq3 =>
              split at h
              · exact Option.noConfusion h
              · rename_i hne4
                split at h
                case _ heq4 =>
                  refine ⟨s.takeWhile Char.isDigit, r2.takeWhile Char.isDigit,
                    r4.takeWhile Char.isDigit, r6.takeWhile Char.isDigit,
                    ⟨?_, ?_, ?_, ?_⟩, ⟨?_, ?_, ?_, ?_⟩, ?_, ?_⟩
                  · intro hnil; rw [hnil] at hne1; exact hne1 rfl
                  · intro hnil; rw [hnil] at hne2; exact hne2 rfl
                  · intro hnil; rw [hnil] at hne3; exact hne3 rfl
                  · intro hnil; rw [hnil] at hne4; exact hne4 rfl
                  · exact fun x hx => List.mem_takeWhile_imp hx
                  · exact fun x hx => List.mem_takeWhile_imp hx
                  · exact fun x hx => List.mem_takeWhile_imp hx
                  · exact fun x hx => List.mem_takeWhile_imp hx
                  · conv_lhs => rw [← List.takeWhile_append_dropWhile (p := Char.isDigit) (l := s)]
                    rw [heq1]
                    conv_lhs => rw [← List.takeWhile_append_dropWhile (p := Char.isDigit) (l := r2)]
                    rw [heq2]
                    conv_lhs => rw [← List.takeWhile_append_dropWhile (p := Char.isDigit) (l := r4)]
                    rw [heq3]
                    conv_lhs => rw [← List.takeWhile_append_dropWhile (p := Char.isDigit) (l := r6)]
                    rw [heq4]
                  · exact (Option.some.injEq _ _ ▸ h).symm
                case _ => exact Option.noConfusion h
            case _ => exact Option.noConfusion h
        case _ => exact Option.noConfusion h
    case _ => exact Option.noConfusion h

/-- C2: `_parse_stats_value` returns exactly the four captured integers on
every string of the exact form `C(A/B/T)` with non-empty digit groups, and
on any other string returns all-absent (and, being a total function, never
raises): every successful parse arises from a string of that exact form. -/
theorem c2_parse_stats_value :
    (∀ c a b t : List Char,
      c ≠ [] → a ≠ [] → b ≠ [] → t ≠ [] →
      (∀ x ∈ c, Char.isDigit x = true) → (∀ x ∈ a, Char.isDigit x = true) →
      (∀ x ∈ b, Char.isDigit x = true) → (∀ x ∈ t, Char.isDigit x = true) →
      parse_stats_value (c ++ ('(' :: (a ++ ('/' :: (b ++ ('/' :: (t ++ [')'])))))))
        = some (digitsToNat c, digitsToNat a, digitsToNat b, digitsToNat t))
    ∧ (∀ (s : List Char) (r : Nat × Nat × Nat × Nat), parse_stats_value s = some r →
      ∃ c a b t : List Char,
        (c ≠ [] ∧ a ≠ [] ∧ b ≠ [] ∧ t ≠ []) ∧
        ((∀ x ∈ c, Char.isDigit x = true) ∧ (∀ x ∈ a, Char.isDigit x = true) ∧
         (∀ x ∈ b, Char.isDigit x = true) ∧ (∀ x ∈ t, Char.isDigit x = true)) ∧
        s = c ++ ('(' :: (a ++ ('/' :: (b ++ ('/' :: (t ++ [')'])))))) ∧
        r = (digitsToNat c, digitsToNat a, digitsToNat b, digitsToNat t)) :=
  ⟨fun c a b t hc ha hb ht hcd had hbd htd =>
      parse_stats_value_of_form c a b t hc ha hb ht hcd had hbd htd,
    parse_stats_value_sound⟩

/-- C2 witness: the concrete triplet string `781(781/723/1)`. -/
theorem c2_witness :
    parse_stats_value ("781(781/723/1)".toList) = some (781, 781, 723, 1) := by
  exact c2_parse_stats_value.1 "781".toList "781".toList "723".toList "1".toList
    (by decide) (by decide) (by decide) (by decide)
    (by decide) (by decide) (by decide) (by decide)

/-- C1 (counterexample): a rain sensor entry whose `R=`-stripped remainder
does not match the triplet grammar does **not** leave the rainfall fields
unset without raising — the decode raises (`.1 * None`, a `TypeError`,
reported here as the `false` flag) after the general part has already
assigned the RSSI. -/
theorem c1_counterexample :
    set_device_status ⟨DeviceKind.rainSensor, { address := 3 }⟩ ⟨"D03", "1,-50,1;R=bogus"⟩
      = (⟨DeviceKind.rainSensor, { address := 3, rf_rssi := some (-50) }⟩, false) := by
  rfl

/-- C1 (amended): malformed humidity and pressure triplets (Display Hub, Air
Sensor) assign `None` to exactly their four fields without raising, and the
sibling fields of the same entry are still decoded; by contrast a malformed
temperature triplet (`_temp_to_mk(None)`), a non-numeric moisture field
(`int`), or a rain value whose stripped remainder does not match the triplet
grammar (`.1 * None`) raises an uncaught exception, which aborts that
entry's decode at that point, keeping only the assignments already made. -/
theorem c1_specific_field_errors :
    (∀ (s temp_str hum_str press_str : List Char) (rest : List (List Char))
        (tc ta tb tt : Nat),
      splitOnChar ',' s = temp_str :: hum_str :: press_str :: rest →
      parse_stats_value temp_str = some (tc, ta, tb, tt) →
      displayHub_parse_specific s =
        ({ temp_mk_current := some (some (temp_to_mk tc)),
           temp_mk_daily_max := some (some (temp_to_mk ta)),
           temp_mk_daily_min := some (some (temp_to_mk tb)),
           temp_trend := some (some (temp_to_mk tt)),
           hum_current := some ((parse_stats_value hum_str).map statCur),
           hum_daily_max := some ((parse_stats_value hum_str).map statMax),
           hum_daily_min := some ((parse_stats_value hum_str).map statMin),
           hum_trend := some ((parse_stats_value hum_str).map statTrend),
           press_pa_current := some ((parse_stats_value (press_str.drop 2)).map statCur),
           press_pa_daily_max := some ((parse_stats_value (press_str.drop 2)).map statMax),
           press_pa_daily_min := some ((parse_stats_value (press_str.drop 2)).map statMin),
           press_trend := some ((parse_stats_value (press_str.drop 2)).map statTrend) },
          true))
    ∧ (∀ (s temp_str hum_str press_str : List Char) (rest : List (List Char)),
      splitOnChar ',' s = temp_str :: hum_str :: press_str :: rest →
      parse_stats_value temp_str = none →
      displayHub_parse_specific s = ({}, false))
    ∧ (∀ (s temp_str hum_str : List Char) (rest : List (List Char)) (tc ta tb tt : Nat),
      splitOnChar ',' s = temp_str :: hum_str :: rest →
      parse_stats_value temp_str = some (tc, ta, tb, tt) →
      air_parse_specific s =
        ({ temp_mk_current := some (some (temp_to_mk tc)),
           temp_mk_daily_max := some (some (temp_to_mk ta)),
           temp_mk_daily_min := some (some (temp_to_mk tb)),
           temp_trend := some (some (temp_to_mk tt)),
           hum_current := some ((parse_stats_value hum_str).map statCur),
           hum_daily_max := some ((parse_stats_value hum_str).map statMax),
           hum_daily_min := some ((parse_stats_value hum_str).map statMin),
           hum_trend := some ((parse_stats_value hum_str).map statTrend) }, true))
    ∧ (∀ (s temp_str moist_str light_str : List Char) (tv : Int),
      splitOnChar ',' s = [temp_str, moist_str, light_str] →
      pyInt? temp_str = some tv → pyInt? moist_str = none →
      soil_parse_specific s = ({ temp_mk_current := some (some (temp_to_mk tv)) }, false))
    ∧ (∀ s : List Char, parse_stats_value (s.drop 2) = none →
      rain_parse_specific s = ({}, false)) := by
  refine ⟨?_, ?_, ?_, ?_, ?_⟩
  · intro s temp_str hum_str press_str rest tc ta tb tt hsplit hstats
    simp only [displayHub_parse_specific, hsplit, hstats]
  · intro s temp_str hum_str press_str rest hsplit hstats
    simp only [displayHub_parse_specific, hsplit, hstats]
  · intro s temp_str hum_str rest tc ta tb tt hsplit hstats
    simp only [air_parse_specific, hsplit, hstats]
  · intro s temp_str moist_str light_str tv hsplit htv hmv
    simp only [soil_parse_specific, hsplit, htv, hmv]
  · intro s hstats
    simp only [rain_parse_specific, hstats]

/-- C1 witness: a Display Hub entry with a malformed humidity triplet still
decodes temperature and pressure and reports success, while a soil-sensor
entry with a non-numeric moisture field keeps the already-decoded
temperature and reports the raise. -/
theorem c1_witness :
    displayHub_parse_specific ("781(781/723/1),bogus,P=10213(10222/10205/1),".toList)
      = ({ temp_mk_current := some (some 298761),
           temp_mk_daily_max := some (some 298761),
           temp_mk_daily_min := some (some 295539),
           temp_trend := some (some 255428),
           hum_current := some none, hum_daily_max := some none,
           hum_daily_min := some none, hum_trend := some none,
           press_pa_current := some (some 10213),
           press_pa_daily_max := some (some 10222),
           press_pa_daily_min := some (some 10205),
           press_trend := some (some 1) }, true)
    ∧ soil_parse_specific ("766,x,G=31351".toList)
      = ({ temp_mk_current := some (some 297928) }, false) := by
  constructor
  · have h := c1_specific_field_errors.1 ("781(781/723/1),bogus,P=10213(10222/10205/1),".toList)
      ("781(781/723/1)".toList) ("bogus".toList) ("P=10213(10222/10205/1)".toList) [[]]
      781 781 723 1 rfl rfl
    have e781 : temp_to_mk ((781 : Nat) : Int) = 298761 := by norm_num [temp_to_mk, pyRound]
    have e723 : temp_to_mk ((723 : Nat) : Int) = 295539 := by norm_num [temp_to_mk, pyRound]
    have e1 : temp_to_mk ((1 : Nat) : Int) = 255428 := by norm_num [temp_to_mk, pyRound]
    have hbog : parse_stats_value ("bogus".toList) = none := rfl
    have hpress : parse_stats_value (List.drop 2 ("P=10213(10222/10205/1)".toList))
        = some (10213, 10222, 10205, 1) := rfl
    rw [h, hbog, hpress, e781, e723, e1]
    rfl
  · have h := c1_specific_field_errors.2.2.2.1 ("766,x,G=31351".toList)
      ("766".toList) ("x".toList) ("G=31351".toList) 766 rfl rfl rfl
    have e766 : temp_to_mk 766 = 297928 := by norm_num [temp_to_mk, pyRound]
    rw [h, e766]

/-- C4 (counterexample): on the example blob the decoder sets
`currentDuration` to 0 (tag `0x07` is followed by value bytes `00 00 00 00`)
and `totalUsage` to 7 (tag `0xb3` followed by `07 00 00 00`), not to 7
and 1971 as claimed — 1971 = 0x7B3 reads the tag byte into the value. -/
theorem scanTags_pad (p : StatusPatch) (rest : List Nat) :
    scanTags p (255 :: rest) = scanTags p rest := by
  conv_lhs => rw [scanTags.eq_def]
  simp

theorem scanTags_step (p p2 : StatusPatch) (tag b0 b1 b2 b3 : Nat) (rest : List Nat)
    (htag : tag ≠ 255)
    (happ : applyTag tag (b0 + 256 * b1 + 65536 * b2 + 16777216 * b3) p = some p2) :
    scanTags p (tag :: b0 :: b1 :: b2 :: b3 :: rest) = scanTags p2 rest := by
  rw [scanTags.eq_2, if_neg htag, happ]

theorem applyTag_0b (v : Nat) (p : StatusPatch) : applyTag 0x0b v p = some p := rfl

theorem applyTag_dc (v : Nat) (p : StatusPatch) : applyTag 0xdc v p = some p := rfl

theorem applyTag_b7 (v : Nat) (p : StatusPatch) (ts : PyDateTime)
    (h : decodeTimestamp v = some ts) :
    applyTag 0xb7 v p = some { p with endOfLastUsage := some (some ts) } := by
  simp [applyTag, h]

theorem applyTag_07 (v : Nat) (p : StatusPatch) :
    applyTag 0x07 v p = some { p with currentDuration := some (some v) } := rfl

theorem applyTag_af (v : Nat) (p : StatusPatch) :
    applyTag 0xaf v p = some { p with currentUsage := some (some v) } := rfl

theorem applyTag_9f (v : Nat) (p : StatusPatch) :
    applyTag 0x9f v p = some { p with lastUsage := some (some v) } := rfl

theorem applyTag_0a (v : Nat) (p : StatusPatch) :
    applyTag 0x0a v p = some { p with lastDuration := some (some v) } := rfl

theorem applyTag_cb (v : Nat) (p : StatusPatch) :
    applyTag 0xcb v p = some { p with totalUsageCurrentDay := some (some v) } := rfl

theorem applyTag_b3 (v : Nat) (p : StatusPatch) :
    applyTag 0xb3 v p = some { p with totalUsage := some (some v) } := rfl

theorem flowMeterExample_eq :
    flowMeterExample =
      (⟨DeviceKind.waterFlowMeter,
        { address := 5, rf_rssi := some (-50),
          endOfLastUsage := some ⟨2025, 9, 21, 14, 27, 25⟩,
          currentDuration := some 0, currentUsage := some 0, lastUsage := some 7,
          lastDuration := some 2, totalUsageCurrentDay := some 7,
          totalUsage := some 7 }⟩, true) := by
  have hts : decodeTimestamp (217 + 256 * 230 + 65536 * 106 + 16777216 * 22)
      = some ⟨2025, 9, 21, 14, 27, 25⟩ := by decide
  have hscan : scanTags { rf_rssi := some (some (-50)) } [255, 11, 0, 0, 0, 0, 220, 1, 153, 0, 0, 183, 217, 230, 106, 22, 255, 7, 0, 0, 0, 0, 175, 0, 0, 0, 0, 159, 7, 0, 0, 0, 255, 10, 2, 0, 0, 0, 203, 7, 0, 0, 0, 179, 7, 0, 0, 0]
      = ({ rf_rssi := some (some (-50)),
            endOfLastUsage := some (some ⟨2025, 9, 21, 14, 27, 25⟩),
            currentDuration := some (some 0), currentUsage := some (some 0),
            lastUsage := some (some 7), lastDuration := some (some 2),
            totalUsageCurrentDay := some (some 7), totalUsage := some (some 7) },
          true) := by
    show scanTags _ (255 :: 11 :: 0 :: 0 :: 0 :: 0 :: 220 :: 1 :: 153 :: 0 :: 0 :: 183 :: 217 :: 230 :: 106 :: 22 :: 255 :: 7 :: 0 :: 0 :: 0 :: 0 :: 175 :: 0 :: 0 :: 0 :: 0 :: 159 :: 7 :: 0 :: 0 :: 0 :: 255 :: 10 :: 2 :: 0 :: 0 :: 0 :: 203 :: 7 :: 0 :: 0 :: 0 :: 179 :: 7 :: 0 :: 0 :: 0 :: ([] : List Nat)) = _
    rw [scanTags_pad,
      scanTags_step _ _ 11 0 0 0 0 _ (by decide) (applyTag_0b _ _),
      scanTags_step _ _ 220 1 153 0 0 _ (by decide) (applyTag_dc _ _),
      scanTags_step _ _ 183 217 230 106 22 _ (by decide) (applyTag_b7 _ _ _ hts),
      scanTags_pad,
      scanTags_step _ _ 7 0 0 0 0 _ (by decide) (applyTag_07 _ _),
      scanTags_step _ _ 175 0 0 0 0 _ (by decide) (applyTag_af _ _),
      scanTags_step _ _ 159 7 0 0 0 _ (by decide) (applyTag_9f _ _),
      scanTags_pad,
      scanTags_step _ _ 10 2 0 0 0 _ (by decide) (applyTag_0a _ _),
      scanTags_step _ _ 203 7 0 0 0 _ (by decide) (applyTag_cb _ _),
      scanTags_step _ _ 179 7 0 0 0 _ (by decide) (applyTag_b3 _ _)]
    rfl
  have hsplit : splitOnChar '#' ("10#E1CE00FF0B00000000DC01990000B7D9E66A16FF0700000000AF000000009F07000000FF0A02000000CB07000000B307000000".toList)
      = ["10".toList, "E1CE00FF0B00000000DC01990000B7D9E66A16FF0700000000AF000000009F07000000FF0A02000000CB07000000B307000000".toList] := by decide
  have hbytes : bytesFromHex ("E1CE00FF0B00000000DC01990000B7D9E66A16FF0700000000AF000000009F07000000FF0A02000000CB07000000B307000000".toList)
      = some [225, 206, 0, 255, 11, 0, 0, 0, 0, 220, 1, 153, 0, 0, 183, 217, 230, 106, 22, 255, 7, 0, 0, 0, 0, 175, 0, 0, 0, 0, 159, 7, 0, 0, 0, 255, 10, 2, 0, 0, 0, 203, 7, 0, 0, 0, 179, 7, 0, 0, 0] := by decide
  have hflow : flow_parse_status_d_value ("10#E1CE00FF0B00000000DC01990000B7D9E66A16FF0700000000AF000000009F07000000FF0A02000000CB07000000B307000000".toList)
      = ({ rf_rssi := some (some (-50)),
            endOfLastUsage := some (some ⟨2025, 9, 21, 14, 27, 25⟩),
            currentDuration := some (some 0), currentUsage := some (some 0),
            lastUsage := some (some 7), lastDuration := some (some 2),
            totalUsageCurrentDay := some (some 7), totalUsage := some (some 7) },
          true) := by
    simp only [flow_parse_status_d_value, hsplit, hbytes]
    rw [show (-(-((206 : Nat) : Int) % 256)) = (-50 : Int) by decide]
    rw [show List.drop 3 [225, 206, 0, 255, 11, 0, 0, 0, 0, 220, 1, 153, 0, 0, 183, 217, 230, 106, 22, 255, 7, 0, 0, 0, 0, 175, 0, 0, 0, 0, 159, 7, 0, 0, 0, 255, 10, 2, 0, 0, 0, 203, 7, 0, 0, 0, 179, 7, 0, 0, 0] = [255, 11, 0, 0, 0, 0, 220, 1, 153, 0, 0, 183, 217, 230, 106, 22, 255, 7, 0, 0, 0, 0, 175, 0, 0, 0, 0, 159, 7, 0, 0, 0, 255, 10, 2, 0, 0, 0, 203, 7, 0, 0, 0, 179, 7, 0, 0, 0] from rfl]
    exact hscan
  have hpf : statusPatchFor DeviceKind.waterFlowMeter 5 "D05" ("10#E1CE00FF0B00000000DC01990000B7D9E66A16FF0700000000AF000000009F07000000FF0A02000000CB07000000B307000000".toList)
      = ({ rf_rssi := some (some (-50)),
            endOfLastUsage := some (some ⟨2025, 9, 21, 14, 27, 25⟩),
            currentDuration := some (some 0), currentUsage := some (some 0),
            lastUsage := some (some 7), lastDuration := some (some 2),
            totalUsageCurrentDay := some (some 7), totalUsage := some (some 7) },
          true) := by
    simp only [statusPatchFor]
    rw [if_pos (show ("D05" : String) = formatD02 5 from rfl)]
    exact hflow
  show set_device_status _ _ = _
  simp only [set_device_status, hpf]
  rfl

/-- C4 (counterexample): on the example blob the decoder sets
`currentDuration` to 0 (tag `0x07` is followed by value bytes `00 00 00 00`)
and `totalUsage` to 7 (tag `0xb3` followed by `07 00 00 00`), not to 7
and 1971 as the claim states — 1971 = 0x7B3 reads the B3 tag byte into the
value. -/
theorem c4_counterexample :
    flowMeterExample.1.st.currentDuration ≠ some 7
      ∧ flowMeterExample.1.st.totalUsage ≠ some 1971 := by
  rw [flowMeterExample_eq]
  decide

/-- C4 (amended): decoding the example value sets rf_rssi = −50 (from byte 1
as `-((-0xCE) & 0xff)`), currentDuration = 0 s, currentUsage = 0,
lastUsage = 7, lastDuration = 2 s, totalUsageCurrentDay = 7 and
totalUsage = 7 (0.1 L units, i.e. 0.7 L), with the end-of-last-usage
timestamp 2025-09-21 14:27:25, and the decode succeeds. -/
theorem c4_flow_example :
    flowMeterExample.1.st.rf_rssi = some (-50)
    ∧ flowMeterExample.1.st.currentDuration = some 0
    ∧ flowMeterExample.1.st.currentUsage = some 0
    ∧ flowMeterExample.1.st.lastUsage = some 7
    ∧ flowMeterExample.1.st.lastDuration = some 2
    ∧ flowMeterExample.1.st.totalUsageCurrentDay = some 7
    ∧ flowMeterExample.1.st.totalUsage = some 7
    ∧ flowMeterExample.1.st.endOfLastUsage = some ⟨2025, 9, 21, 14, 27, 25⟩
    ∧ flowMeterExample.2 = true := by
  rw [flowMeterExample_eq]
  exact ⟨rfl, rfl, rfl, rfl, rfl, rfl, rfl, rfl, rfl⟩

end Homgar
